import Mathlib

/-!
Shallow embedding of `src/src/api/osmesa.rs` (the OsMesa backend of glutin):
context creation with attribute negotiation, the current/not-current binding
protocol against the native thread-local current-context slot, function-pointer
resolution, and buffer allocation. External nondeterminism of the native
rasterizer library (whether loading succeeds, which handle creation returns,
whether a native make-current call succeeds) is passed in as explicit
parameters; the per-thread current-context slot is explicit state.
-/

namespace Glutin

/-- Modelled from the spec: a GL specification subset (Core vs Compatibility) a
context is created against; mirrors `crate::context::GlProfile`, which is
declared outside src/. -/
inductive GlProfile where
  | core
  | compatibility
  deriving DecidableEq, Repr

/-- Modelled from the spec: a negotiated guarantee about context behavior after
a rasterizer reset event; mirrors `crate::context::Robustness`, which is
declared outside src/. -/
inductive Robustness where
  | notRobust
  | noError
  | tryRobustNoResetNotification
  | robustNoResetNotification
  | tryRobustLoseContextOnReset
  | robustLoseContextOnReset
  deriving DecidableEq, Repr

/-- Modelled from the spec: target GL version as a major/minor pair; mirrors
`crate::config::Version`, two u8 components, declared outside src/. -/
structure Version where
  major : Fin 256
  minor : Fin 256
  deriving DecidableEq, Repr

/-- Modelled from the spec: the capability-preferences record handed to context
creation; mirrors `crate::context::ContextBuilderWrapper`, declared outside
src/. Only the fields read by `OsMesaContext::new` are modelled. -/
structure ContextBuilderWrapper (T : Type) where
  sharing : Option T
  robustness : Robustness
  profile : Option GlProfile

/-- Native context handle as a raw pointer value; 0 means null. -/
abbrev OSMesaContextHandle := Nat

/-- Constant from the external glutin_osmesa_sys crate (osmesa.h). -/
def OSMESA_PROFILE : Int := 0x33

/-- Constant from the external glutin_osmesa_sys crate (osmesa.h). -/
def OSMESA_CORE_PROFILE : Int := 0x34

/-- Constant from the external glutin_osmesa_sys crate (osmesa.h). -/
def OSMESA_COMPAT_PROFILE : Int := 0x35

/-- Constant from the external glutin_osmesa_sys crate (osmesa.h). -/
def OSMESA_CONTEXT_MAJOR_VERSION : Int := 0x36

/-- Constant from the external glutin_osmesa_sys crate (osmesa.h). -/
def OSMESA_CONTEXT_MINOR_VERSION : Int := 0x37

/-- Modelled from the spec: native entry points of the external rasterizer
library that consume a context handle (the context-creation call and the
bind/unbind call). A trace of these records which native calls an operation
issued. -/
inductive NativeCall where
  | createContextAttribs (attribs : List Int) (share : OSMesaContextHandle)
  | makeCurrent (ctx : OSMesaContextHandle) (format : Int) (width height : Int)
  deriving DecidableEq, Repr

/-- Modelled from the spec: the native layer's per-thread current-context slot;
0 when no context is current on the thread. -/
structure NativeState where
  current : OSMesaContextHandle
  deriving DecidableEq, Repr

/-- Modelled from the spec: OSMesaGetCurrentContext returns the thread's
currently-bound native context handle, or null (0) if none. -/
def osMesaGetCurrentContext (s : NativeState) : OSMesaContextHandle :=
  s.current

/-- Modelled from the spec: OSMesaMakeCurrent binds `ctx` as the thread's
current context when it succeeds, and returns a boolean-like success indicator
(0 on failure). `succeeds` is the external nondeterminism of the native call;
passing the null context with zero format and dimensions is the clear-current
request. -/
def osMesaMakeCurrent (ctx : OSMesaContextHandle) (s : NativeState)
    (succeeds : Bool) : Int × NativeState :=
  if succeeds then (1, { current := ctx }) else (0, s)

/-- Result of an operation that may abort the process instead of returning. -/
inductive Outcome (α : Type) where
  | ok (a : α)
  | panicked (msg : String)
  deriving DecidableEq, Repr

/-- Modelled from the spec: platform error payloads used by this module;
mirrors the external winit_types `OsError` variants that osmesa.rs constructs. -/
inductive OsError where
  | osMesaLoadingError (msg : String)
  | misc (msg : String)
  deriving DecidableEq, Repr

/-- Modelled from the spec: error kinds surfaced to the caller; mirrors the
external winit_types `ErrorType` variants that osmesa.rs constructs. -/
inductive Err where
  | osError (e : OsError)
  | robustnessNotSupported
  | badApiUsage (msg : String)
  deriving DecidableEq, Repr

/-- Represents an OpenGL context made with OsMesa: holds the native handle
(`OsMesaContext` in src/src/api/osmesa.rs, lines 24-27). -/
structure OsMesaContext where
  context : OSMesaContextHandle
  deriving DecidableEq, Repr

/-- Represents an OsMesa buffer (`OsMesaBuffer` in src/src/api/osmesa.rs,
lines 32-37): uninitialized byte storage plus its dimensions. Each storage
element is a `NoPrint<MaybeUninit<u8>>`; an uninitialized byte carries no
information, so elements are modelled as `Unit` and only the length matters. -/
structure OsMesaBuffer where
  buffer : List Unit
  width : Nat
  height : Nat
  deriving DecidableEq, Repr

/-- Bit width of usize on the 64-bit targets this module is compiled for. -/
def usizeBits : Nat := 64

/-- Wrapping usize multiplication: release-profile Rust semantics of `a * b`
at type usize on a 64-bit target. -/
def usizeMul (a b : Nat) : Nat :=
  a * b % 2 ^ usizeBits

/-- OsMesaBuffer::new (src/src/api/osmesa.rs, lines 188-198): allocates
`width as usize * height as usize * 4` uninitialized bytes via
`iter::repeat(..).take(n).collect()` and stores the given u32 dimensions.
`width` and `height` are u32 values (below 2^32); the casts to usize are exact
and the two multiplications wrap at 2^64. -/
def OsMesaBuffer.new (width height : Nat) : Except Err OsMesaBuffer :=
  .ok
    { width := width
      height := height
      buffer := List.replicate (usizeMul (usizeMul width height) 4) () }

/-- OsMesaContext::new (src/src/api/osmesa.rs, lines 40-96). `loadOk` models
the result of the lazy `OsMesa::try_loading` call and `createdHandle` the
handle returned by the native OSMesaCreateContextAttribs call (0 for null).
The second component is the trace of native context-creation calls issued. -/
def OsMesaContext.new (cb : ContextBuilderWrapper OsMesaContext)
    (version : Version) (loadOk : Bool) (createdHandle : OSMesaContextHandle) :
    Outcome (Except Err OsMesaContext) × List NativeCall :=
  if !loadOk then
    (.ok (.error (.osError (.osMesaLoadingError "OsMesa loading error"))), [])
  else if cb.sharing.isSome then
    (.panicked "[glutin] Context sharing not possible with OsMesa", [])
  else
    match cb.robustness with
    | .robustNoResetNotification | .robustLoseContextOnReset =>
        (.ok (.error .robustnessNotSupported), [])
    | _ =>
        let attribs : List Int := []
        let attribs :=
          match cb.profile with
          | some profile =>
              let attribs := attribs ++ [OSMESA_PROFILE]
              match profile with
              | .compatibility => attribs ++ [OSMESA_COMPAT_PROFILE]
              | .core => attribs ++ [OSMESA_CORE_PROFILE]
          | none => attribs
        let attribs := attribs ++
          [OSMESA_CONTEXT_MAJOR_VERSION, (version.major : Int),
           OSMESA_CONTEXT_MINOR_VERSION, (version.minor : Int)]
        -- attribs array must be NULL terminated.
        let attribs := attribs ++ [0]
        if createdHandle = 0 then
          (.ok (.error (.osError (.misc "OSMesaCreateContextAttribs failed"))),
           [.createContextAttribs attribs 0])
        else
          (.ok (.ok { context := createdHandle }),
           [.createContextAttribs attribs 0])

/-- OsMesaContext::make_current (src/src/api/osmesa.rs, lines 98-115): issues
the native OSMesaMakeCurrent call with the buffer storage, GL_UNSIGNED_BYTE
(0x1401) and the buffer dimensions, and aborts on a zero return. `nativeOk` is
the external nondeterminism of the native call. -/
def OsMesaContext.make_current (c : OsMesaContext) (buffer : OsMesaBuffer)
    (s : NativeState) (nativeOk : Bool) :
    Outcome (Except Err Unit × NativeState) × List NativeCall :=
  let r := osMesaMakeCurrent c.context s nativeOk
  (if r.1 = 0 then
     .panicked "[glutin] OSMesaMakeCurrent failed"
   else
     .ok (.ok (), r.2),
   [.makeCurrent c.context 0x1401 (buffer.width : Int) (buffer.height : Int)])

/-- OsMesaContext::make_not_current (src/src/api/osmesa.rs, lines 117-147):
acts only when this context is the thread's current one; then it issues the
native clear-current request (null context, null buffer, zero format and
dimensions), aborting via unimplemented! when the driver rejects it. `clearOk`
is the external nondeterminism of that native call. -/
def OsMesaContext.make_not_current (c : OsMesaContext) (s : NativeState)
    (clearOk : Bool) :
    Outcome (Except Err Unit × NativeState) × List NativeCall :=
  if osMesaGetCurrentContext s == c.context then
    let r := osMesaMakeCurrent 0 s clearOk
    (if r.1 = 0 then
       .panicked
         "not implemented: OSMesaMakeCurrent failed to make the context not current. This most likely means that you're using an older gallium-based mesa driver."
     else
       .ok (.ok (), r.2),
     [.makeCurrent 0 0 0 0])
  else
    (.ok (.ok (), s), [])

/-- OsMesaContext::is_current (src/src/api/osmesa.rs, lines 150-153): compares
the thread's current native context handle with this context's handle. -/
def OsMesaContext.is_current (c : OsMesaContext) (s : NativeState) : Bool :=
  osMesaGetCurrentContext s == c.context

/-- OsMesaContext::get_proc_address (src/src/api/osmesa.rs, lines 161-174): in
builds with debug assertions a non-current context is a BadApiUsage error;
otherwise the symbol bytes are turned into a CString — which aborts on an
interior NUL byte, as `CString::new(..).unwrap()` does — and the native
resolver's pointer is returned unchanged (0 models a null pointer). `addr` is
the symbol name as its UTF-8 bytes and `gpa` models OSMesaGetProcAddress. -/
def OsMesaContext.get_proc_address (c : OsMesaContext) (addr : List Nat)
    (s : NativeState) (debugAssertions : Bool) (gpa : List Nat → Nat) :
    Outcome (Except Err Nat) :=
  if debugAssertions && !(c.is_current s) then
    .ok (.error (.badApiUsage
      "`get_proc_address` called on context that is not current."))
  else if addr.contains 0 then
    .panicked "called `Result::unwrap()` on an `Err` value"
  else
    .ok (.ok (gpa addr))

/-- Resolver whose every symbol lookup yields the null pointer. -/
def nullResolver : List Nat → Nat :=
  fun _ => 0

/-- Claim C1: in Context creation, when a profile is specified, the attribute
list passed to the native creation call is exactly the profile-selector key,
the resolved profile constant (OSMESA_CORE_PROFILE for Core,
OSMESA_COMPAT_PROFILE for Compatibility), the major-version key and value, the
minor-version key and value, and a single terminating zero as the last
element; with no profile the profile pair is omitted but both version pairs
and the terminator are still present in that order. -/
theorem claim_C1 (cb : ContextBuilderWrapper OsMesaContext) (version : Version)
    (createdHandle : OSMesaContextHandle) (hshare : cb.sharing = none)
    (hrob1 : cb.robustness ≠ .robustNoResetNotification)
    (hrob2 : cb.robustness ≠ .robustLoseContextOnReset) :
    (OsMesaContext.new cb version true createdHandle).2 =
      [.createContextAttribs
        ((match cb.profile with
          | some .core => [OSMESA_PROFILE, OSMESA_CORE_PROFILE]
          | some .compatibility => [OSMESA_PROFILE, OSMESA_COMPAT_PROFILE]
          | none => []) ++
         [OSMESA_CONTEXT_MAJOR_VERSION, (version.major : Int),
          OSMESA_CONTEXT_MINOR_VERSION, (version.minor : Int), 0]) 0] := by
  unfold OsMesaContext.new
  cases hr : cb.robustness
  case robustNoResetNotification => exact absurd hr hrob1
  case robustLoseContextOnReset => exact absurd hr hrob2
  all_goals
    rcases hp : cb.profile with _ | p
    case _ =>
      by_cases hc : createdHandle = 0 <;> simp [hshare, hr, hp, hc]
    case _ =>
      cases p <;> (by_cases hc : createdHandle = 0 <;> simp [hshare, hr, hp, hc])

/-- Witness for claim C1 at a concrete input: version 3.3, Core profile,
no sharing, default robustness. -/
theorem claim_C1_witness :
    (OsMesaContext.new ⟨none, .notRobust, some .core⟩ ⟨3, 3⟩ true 1).2 =
      [.createContextAttribs
        [OSMESA_PROFILE, OSMESA_CORE_PROFILE, OSMESA_CONTEXT_MAJOR_VERSION, 3,
         OSMESA_CONTEXT_MINOR_VERSION, 3, 0] 0] := by
  have h := claim_C1 ⟨none, .notRobust, some .core⟩ ⟨3, 3⟩ 1 rfl
    (by decide) (by decide)
  exact h

/-- Claim C4: creation inputs asking for RobustNoResetNotification or
RobustLoseContextOnReset robustness (with no sharing handle) make Context
creation return the RobustnessNotSupported error, with no native
context-creation call issued. -/
theorem claim_C4 (cb : ContextBuilderWrapper OsMesaContext) (version : Version)
    (createdHandle : OSMesaContextHandle) (hshare : cb.sharing = none)
    (hrob : cb.robustness = .robustNoResetNotification ∨
        cb.robustness = .robustLoseContextOnReset) :
    OsMesaContext.new cb version true createdHandle =
      (.ok (.error .robustnessNotSupported), []) := by
  rcases hrob with h | h <;> simp [OsMesaContext.new, hshare, h]

/-- Witness for claim C4 at a concrete input. -/
theorem claim_C4_witness :
    OsMesaContext.new ⟨none, .robustNoResetNotification, none⟩ ⟨3, 3⟩ true 1 =
      (.ok (.error .robustnessNotSupported), []) := by
  exact claim_C4 ⟨none, .robustNoResetNotification, none⟩ ⟨3, 3⟩ 1 rfl
    (Or.inl rfl)

/-- Claim C5: creation inputs with a context-sharing handle present abort
fatally instead of returning an error value, and no native context-creation
call is issued. -/
theorem claim_C5 (cb : ContextBuilderWrapper OsMesaContext) (version : Version)
    (createdHandle : OSMesaContextHandle) (hshare : cb.sharing.isSome = true) :
    OsMesaContext.new cb version true createdHandle =
      (.panicked "[glutin] Context sharing not possible with OsMesa", []) := by
  simp [OsMesaContext.new, hshare]

/-- Witness for claim C5 at a concrete input. -/
theorem claim_C5_witness :
    OsMesaContext.new ⟨some { context := 7 }, .notRobust, none⟩ ⟨3, 3⟩ true 1 =
      (.panicked "[glutin] Context sharing not possible with OsMesa", []) := by
  exact claim_C5 ⟨some { context := 7 }, .notRobust, none⟩ ⟨3, 3⟩ 1 rfl

/-- Claim C6: with loading successful, no sharing handle and an accepted
robustness mode, Context creation returns the OsError Misc error exactly when
the native creation call returns a null handle, and on a non-null handle
returns a Context owning that handle. -/
theorem claim_C6 (cb : ContextBuilderWrapper OsMesaContext) (version : Version)
    (createdHandle : OSMesaContextHandle) (hshare : cb.sharing = none)
    (hrob1 : cb.robustness ≠ .robustNoResetNotification)
    (hrob2 : cb.robustness ≠ .robustLoseContextOnReset) :
    (OsMesaContext.new cb version true createdHandle).1 =
      .ok (if createdHandle = 0 then
             .error (.osError (.misc "OSMesaCreateContextAttribs failed"))
           else
             .ok { context := createdHandle }) := by
  unfold OsMesaContext.new
  cases hr : cb.robustness
  case robustNoResetNotification => exact absurd hr hrob1
  case robustLoseContextOnReset => exact absurd hr hrob2
  all_goals
    rcases hp : cb.profile with _ | p
    case _ =>
      by_cases hc : createdHandle = 0 <;> simp [hshare, hr, hp, hc]
    case _ =>
      cases p <;> (by_cases hc : createdHandle = 0 <;> simp [hshare, hr, hp, hc])

/-- Witness for claim C6 at a concrete input: a non-null created handle. -/
theorem claim_C6_witness :
    (OsMesaContext.new ⟨none, .notRobust, none⟩ ⟨3, 3⟩ true 5).1 =
      .ok (.ok { context := 5 }) := by
  exact claim_C6 ⟨none, .notRobust, none⟩ ⟨3, 3⟩ 5 rfl (by decide) (by decide)

/-- Claim C2: for a context with a non-null handle, after a successful
make_current with a Buffer the thread's current-context slot makes is_current
return true, and after a successful make_not_current it makes is_current
return false. -/
theorem claim_C2 (c : OsMesaContext) (buffer : OsMesaBuffer)
    (hc : c.context ≠ 0) :
    (∀ s nativeOk res s' tr,
        c.make_current buffer s nativeOk = (.ok (res, s'), tr) →
        c.is_current s' = true) ∧
    (∀ s clearOk res s' tr,
        c.make_not_current s clearOk = (.ok (res, s'), tr) →
        c.is_current s' = false) := by
  constructor
  · intro s nativeOk res s' tr h
    cases nativeOk
    · exact absurd h (by simp [OsMesaContext.make_current, osMesaMakeCurrent])
    · have h' : (Outcome.ok (Except.ok (),
          ({ current := c.context } : NativeState)),
          [NativeCall.makeCurrent c.context 0x1401 (buffer.width : Int)
            (buffer.height : Int)]) = (.ok (res, s'), tr) := h
      simp only [Prod.mk.injEq, Outcome.ok.injEq] at h'
      rw [← h'.1.2]
      simp [OsMesaContext.is_current, osMesaGetCurrentContext]
  · intro s clearOk res s' tr h
    by_cases hcur : osMesaGetCurrentContext s = c.context
    · cases clearOk
      · exact absurd h
          (by simp [OsMesaContext.make_not_current, osMesaMakeCurrent, hcur])
      · have h' : (Outcome.ok (Except.ok (), ({ current := 0 } : NativeState)),
            [NativeCall.makeCurrent 0 0 0 0]) = (.ok (res, s'), tr) := by
          rw [← h]
          simp [OsMesaContext.make_not_current, osMesaMakeCurrent, hcur]
        simp only [Prod.mk.injEq, Outcome.ok.injEq] at h'
        rw [← h'.1.2]
        have h0 : (0 : OSMesaContextHandle) ≠ c.context := Ne.symm hc
        simp [OsMesaContext.is_current, osMesaGetCurrentContext, h0]
    · have h' : (Outcome.ok (Except.ok (), s), ([] : List NativeCall)) =
          (.ok (res, s'), tr) := by
        rw [← h]
        simp [OsMesaContext.make_not_current, hcur]
      simp only [Prod.mk.injEq, Outcome.ok.injEq] at h'
      rw [← h'.1.2]
      simp [OsMesaContext.is_current, osMesaGetCurrentContext]
      exact fun he => hcur he

/-- Witness for claim C2 at concrete inputs: context handle 1, a 4 by 4
buffer, starting from an empty and from a bound current-context slot. -/
theorem claim_C2_witness :
    OsMesaContext.is_current { context := 1 } { current := 1 } = true ∧
    OsMesaContext.is_current { context := 1 } { current := 0 } = false := by
  constructor
  · exact (claim_C2 { context := 1 } { buffer := [], width := 4, height := 4 }
      (by decide)).1 { current := 0 } true (.ok ()) { current := 1 }
      [.makeCurrent 1 0x1401 4 4] rfl
  · exact (claim_C2 { context := 1 } { buffer := [], width := 4, height := 4 }
      (by decide)).2 { current := 1 } true (.ok ()) { current := 0 }
      [.makeCurrent 0 0 0 0] rfl

/-- Claim C7: when the native make-current call returns zero, make_current
aborts fatally; every non-aborting outcome of make_current is success, never
an error value. -/
theorem claim_C7 (c : OsMesaContext) (buffer : OsMesaBuffer) (s : NativeState) :
    (c.make_current buffer s false).1 =
      .panicked "[glutin] OSMesaMakeCurrent failed" ∧
    (∀ nativeOk res, (c.make_current buffer s nativeOk).1 = .ok res →
      res.1 = .ok ()) := by
  constructor
  · simp [OsMesaContext.make_current, osMesaMakeCurrent]
  · intro nativeOk res h
    cases nativeOk
    · exact absurd h (by simp [OsMesaContext.make_current, osMesaMakeCurrent])
    · have h' : Outcome.ok (Except.ok (),
          ({ current := c.context } : NativeState)) = .ok res := h
      simp only [Outcome.ok.injEq] at h'
      rw [← h']

/-- Witness for claim C7 at concrete inputs. -/
theorem claim_C7_witness :
    (OsMesaContext.make_current { context := 1 }
        { buffer := [], width := 4, height := 4 } { current := 0 } false).1 =
      .panicked "[glutin] OSMesaMakeCurrent failed" ∧
    (Except.ok () : Except Err Unit) = .ok () := by
  exact ⟨(claim_C7 { context := 1 } { buffer := [], width := 4, height := 4 }
      { current := 0 }).1,
    (claim_C7 { context := 1 } { buffer := [], width := 4, height := 4 }
      { current := 0 }).2 true (.ok (), { current := 1 }) rfl⟩

/-- Claim C8: make_not_current on a Context that is not the thread's current
context issues no native clear-current call, leaves the current-context slot
unchanged, and returns success. -/
theorem claim_C8 (c : OsMesaContext) (s : NativeState) (clearOk : Bool)
    (h : c.is_current s = false) :
    c.make_not_current s clearOk = (.ok (.ok (), s), []) := by
  rw [OsMesaContext.is_current] at h
  simp [OsMesaContext.make_not_current, h]

/-- Witness for claim C8 at a concrete input: a context that was never bound. -/
theorem claim_C8_witness :
    OsMesaContext.make_not_current { context := 1 } { current := 0 } true =
      (.ok (.ok (), { current := 0 }), []) := by
  exact claim_C8 { context := 1 } { current := 0 } true (by decide)

/-- Claim C9: with debug assertions active, get_proc_address on a non-current
context returns the BadApiUsage error; on a current context (with a symbol
name free of interior NUL bytes, as any C symbol name is) it delegates to the
native resolver and passes its pointer through unchanged, a null result
included. -/
theorem claim_C9 (c : OsMesaContext) (addr : List Nat) (s : NativeState)
    (gpa : List Nat → Nat) :
    (c.is_current s = false →
      c.get_proc_address addr s true gpa =
        .ok (.error (.badApiUsage
          "`get_proc_address` called on context that is not current."))) ∧
    (c.is_current s = true → addr.contains 0 = false →
      c.get_proc_address addr s true gpa = .ok (.ok (gpa addr))) := by
  constructor
  · intro h
    simp [OsMesaContext.get_proc_address, h]
  · intro h hnul
    have h0 : (0 : Nat) ∉ addr := by simpa using hnul
    simp [OsMesaContext.get_proc_address, h, h0]

/-- Witness for claim C9 at concrete inputs, with a resolver returning the
null pointer to show it is passed through. -/
theorem claim_C9_witness :
    OsMesaContext.get_proc_address { context := 1 } [103, 108] { current := 0 }
        true nullResolver =
      .ok (.error (.badApiUsage
        "`get_proc_address` called on context that is not current.")) ∧
    OsMesaContext.get_proc_address { context := 1 } [103, 108] { current := 1 }
        true nullResolver = .ok (.ok 0) := by
  exact ⟨(claim_C9 { context := 1 } [103, 108] { current := 0 }
      nullResolver).1 (by decide),
    (claim_C9 { context := 1 } [103, 108] { current := 1 }
      nullResolver).2 (by decide) (by decide)⟩

/-- Claim C3 as stated is false: at width = height = 2^31 (both positive valid
u32 values) Buffer creation succeeds but the storage length is 0, not
width*height*4 = 2^64, because the usize byte-size computation wraps. -/
theorem claim_C3_counterexample :
    (0 : Nat) < 2 ^ 31 ∧
    OsMesaBuffer.new (2 ^ 31) (2 ^ 31) =
      .ok { buffer := [], width := 2 ^ 31, height := 2 ^ 31 } ∧
    ([] : List Unit).length ≠ 2 ^ 31 * 2 ^ 31 * 4 := by
  refine ⟨by norm_num, ?_, by norm_num⟩
  rfl

/-- Claim C3 (amended): for u32 dimensions with width > 0 and height > 0 whose
byte size width*height*4 stays below 2^64 (no usize overflow on the 64-bit
target), Buffer creation succeeds and the storage length equals width*height*4
exactly, with the width and height fields set to the given values. -/
theorem claim_C3_amended (width height : Nat) (hw32 : width < 2 ^ 32)
    (hh32 : height < 2 ^ 32) (hw : 0 < width) (hh : 0 < height)
    (hfit : width * height * 4 < 2 ^ 64) :
    OsMesaBuffer.new width height =
      .ok { buffer := List.replicate (width * height * 4) ()
            width := width, height := height } := by
  have h1 : width * height < 2 ^ 64 := by nlinarith
  unfold OsMesaBuffer.new usizeMul usizeBits
  rw [Nat.mod_eq_of_lt h1, Nat.mod_eq_of_lt hfit]

/-- Witness for the amended claim C3 at a concrete input: a 64 by 64 buffer. -/
theorem claim_C3_witness :
    OsMesaBuffer.new 64 64 =
      .ok { buffer := List.replicate (64 * 64 * 4) ()
            width := 64, height := 64 } := by
  exact claim_C3_amended 64 64 (by norm_num) (by norm_num) (by norm_num)
    (by norm_num) (by norm_num)

/-- Claim C10 as stated is false: at the largest u32 dimensions
width = height = 2^32 - 1 the widened usize computation wraps at 2^64 and does
not equal the mathematical product width*height*4. -/
theorem claim_C10_counterexample :
    usizeMul (usizeMul (2 ^ 32 - 1) (2 ^ 32 - 1)) 4 ≠
      (2 ^ 32 - 1) * (2 ^ 32 - 1) * 4 := by
  decide

/-- Claim C10 (amended): for u32 dimensions, the storage-size computation of
Buffer creation — width and height widened to usize, multiplied, then
multiplied by 4, wrapping at 2^64 on the 64-bit target — equals the
mathematical product width*height*4 exactly when that product is below 2^64;
the widening does make the first multiplication exact, but the final
multiplication by 4 can still wrap. -/
theorem claim_C10_amended (width height : Nat) (hw : width < 2 ^ 32)
    (hh : height < 2 ^ 32) :
    (usizeMul (usizeMul width height) 4 = width * height * 4 ↔
      width * height * 4 < 2 ^ 64) := by
  have h1 : width * height < 2 ^ 64 := by
    calc width * height < 2 ^ 32 * 2 ^ 32 :=
          mul_lt_mul'' hw hh (Nat.zero_le _) (Nat.zero_le _)
      _ = 2 ^ 64 := by norm_num
  unfold usizeMul usizeBits
  rw [Nat.mod_eq_of_lt h1]
  exact Nat.mod_eq_iff_lt (by norm_num)

/-- Witness for the amended claim C10 at a concrete input. -/
theorem claim_C10_witness :
    usizeMul (usizeMul 64 64) 4 = 64 * 64 * 4 := by
  exact (claim_C10_amended 64 64 (by norm_num) (by norm_num)).mpr (by norm_num)

end Glutin
